import Mathlib

/-!
Verification of the RAG retrieval pipeline (`rag_pipeline.py`, `rag_manager.py`,
`api.py`) as a shallow embedding.

Modelling conventions:
* Python floats are modelled as exact rationals (`ℚ`); the claims checked here
  are order/structure properties that do not depend on rounding, and each
  concrete input used in a proof is chosen so that float and rational
  evaluation agree.
* Python dicts with a fixed field layout become structures; a field that may
  be absent or `None` becomes an `Option`.
* External collaborators (embedding provider, vector store, LLM backend,
  reranker model load / predict) are supplied as an explicit environment whose
  outcomes are `Except`/`Option` values; the pipeline functions additionally
  return the list of external calls they performed, so "no call was made" is
  expressible.
* Stateful attributes of the pipeline object (`_reranker`,
  `_reranker_available`, ...) are threaded explicitly: a method that mutates
  them returns the updated `Pipeline` alongside its result.
-/

/-- A chat turn `{"role": ..., "content": ...}` as stored in the conversation
history (`api.py`, `chat_histories`). -/
structure ChatMsg where
  role : String
  content : String
deriving DecidableEq, Repr

/-- The metadata mapping of a document chunk; only the keys the pipeline reads
are modelled (`chunk_index`, `file_name`, `source`), each possibly absent. -/
structure Metadata where
  chunk_index : Option ℤ
  file_name : Option String
  source : Option String
deriving DecidableEq, Repr

/-- A retrieved candidate document: `content` plus the optional `distance`
(from the vector store) and optional `rerank_score` (from the reranker), and
its metadata.  (`rag_pipeline.py` data model.) -/
structure Doc where
  content : String
  distance : Option ℚ
  rerank_score : Option ℚ
  metadata : Metadata
deriving DecidableEq, Repr

/-- One entry of the relevance diagnostics produced by
`get_document_relevance_scores` (`rag_pipeline.py` lines 270-277). -/
structure ScoreEntry where
  label : String
  score : ℚ
  metadata : Metadata
  source_index : ℕ
deriving DecidableEq, Repr

/-- A call to an external collaborator, recorded in the call traces. -/
inductive ExtCall where
  | embed
  | search
  | llm
deriving DecidableEq, Repr

/-- The pipeline object state set up by `BaseRAGPipeline.__init__`
(`rag_pipeline.py` lines 19-40).  `reranker = some ()` stands for a loaded
cross-encoder instance. -/
structure Pipeline where
  enable_query_rewrite : Bool
  enable_rerank : Bool
  retrieval_multiplier : ℚ
  max_retrieve_results : ℤ
  reranker : Option Unit
  reranker_available : Bool
  last_reranker_error : Option String
deriving Repr

/-- `BaseRAGPipeline.__init__` (`rag_pipeline.py` lines 19-40): the stored
multiplier is `max(1.0, retrieval_multiplier)`, the reranker cache starts
empty, and the availability flag starts as `enable_rerank`. -/
def pipeline_init (enable_query_rewrite enable_rerank : Bool)
    (retrieval_multiplier : ℚ) (max_retrieve_results : ℤ) : Pipeline :=
  { enable_query_rewrite := enable_query_rewrite
    enable_rerank := enable_rerank
    retrieval_multiplier := max 1 retrieval_multiplier
    max_retrieve_results := max_retrieve_results
    reranker := none
    reranker_available := enable_rerank
    last_reranker_error := none }

/-- `_calc_retrieve_count` (`rag_pipeline.py` lines 119-125):
`extra = ceil(requested * multiplier)`, `total = max(requested, extra)`,
capped by `max_retrieve_results` when that attribute is truthy (nonzero). -/
def calc_retrieve_count (p : Pipeline) (requested : ℕ) : ℤ :=
  let extra : ℤ := ⌈(requested : ℚ) * p.retrieval_multiplier⌉
  let total : ℤ := max (requested : ℤ) extra
  if p.max_retrieve_results ≠ 0 then min total p.max_retrieve_results else total

/-- `_ensure_reranker` (`rag_pipeline.py` lines 134-149): no-op when reranking
is disabled, unavailable, or already loaded; otherwise attempts the lazy load,
and on failure permanently flips the availability flag and records the error. -/
def ensure_reranker (p : Pipeline) (loadResult : Except String Unit) : Pipeline :=
  if !p.enable_rerank || !p.reranker_available then p
  else if p.reranker.isSome then p
  else
    match loadResult with
    | .ok _ => { p with reranker := some () }
    | .error e => { p with reranker_available := false, last_reranker_error := some e }

/-- `rerank_documents` (`rag_pipeline.py` lines 151-182).  `pred` models
`self._reranker.predict`; `none` stands for an exception raised during
scoring.  Python's stable descending sort by `rerank_score` is
`mergeSort` with the ≥-on-score relation. -/
def rerank_documents (p : Pipeline) (loadResult : Except String Unit)
    (pred : List (String × String) → Option (List ℚ))
    (original_query : String) (retrieved_documents : List Doc) (top_k : ℕ) :
    Pipeline × List Doc :=
  if retrieved_documents = [] then (p, [])
  else if !p.enable_rerank || !p.reranker_available then
    (p, retrieved_documents.take top_k)
  else
    let p' := ensure_reranker p loadResult
    if p'.reranker.isNone then (p', retrieved_documents.take top_k)
    else
      match pred (retrieved_documents.map fun d => (original_query, d.content)) with
      | none => (p', retrieved_documents.take top_k)
      | some scores =>
        let enriched := (retrieved_documents.zip scores).map
          fun pr => { pr.1 with rerank_score := some pr.2 }
        let sorted := enriched.mergeSort fun a b =>
          decide ((b.rerank_score.getD 0) ≤ (a.rerank_score.getD 0))
        (p', sorted.take top_k)

/-- The numbered parts built by the `for idx, doc in enumerate(documents, start=1)`
loop of `build_context` (`rag_pipeline.py` lines 190-192). -/
def buildParts : List Doc → ℕ → List String
  | [], _ => []
  | d :: rest, idx => ("[文档" ++ toString idx ++ "]\n" ++ d.content) :: buildParts rest (idx + 1)

/-- `build_context` (`rag_pipeline.py` lines 185-193): the fixed sentinel on
empty input, otherwise the `[文档N]`-tagged contents joined by a blank line. -/
def build_context (documents : List Doc) : String :=
  if documents = [] then "未找到相关文档"
  else String.intercalate "\n\n" (buildParts documents 1)

/-- The score computed per document by `get_document_relevance_scores`
(`rag_pipeline.py` lines 242-252): `rerank_score` when present, else
`1.0 - distance` when present, else `0.0`.  (Failing `float(...)` conversions
are outside the typed model: `distance`/`rerank_score` hold parsed numbers.) -/
def docScore (d : Doc) : ℚ :=
  match d.rerank_score with
  | some r => r
  | none =>
    match d.distance with
    | some dist => 1 - dist
    | none => 0

/-- `metadata.get("file_name") or metadata.get("source")` followed by the
truthiness test `if source:` (`rag_pipeline.py` line 259): the first
non-empty of the two fields, if any. -/
def pickSourceName (m : Metadata) : Option String :=
  if m.file_name.getD "" ≠ "" then m.file_name
  else if m.source.getD "" ≠ "" then m.source
  else none

/-- The label built for the document at (zero-based) position `idx`
(`rag_pipeline.py` lines 254-268). -/
def docLabel (idx : ℕ) (d : Doc) : String :=
  let chunk_index : ℤ := d.metadata.chunk_index.getD (idx : ℤ)
  match pickSourceName d.metadata with
  | some src => src ++ "#片段" ++ toString (chunk_index + 1)
  | none =>
    let preview := (d.content.trim).replace "\n" " "
    let preview :=
      if preview ≠ "" then preview.take 16 ++ (if preview.length > 16 then "…" else "")
      else "文档" ++ toString (idx + 1)
    preview ++ "#片段" ++ toString (chunk_index + 1)

/-- The `scored_docs` list accumulated by the `for idx, doc in enumerate(documents)`
loop of `get_document_relevance_scores` (`rag_pipeline.py` lines 238-277),
before sorting.  The `isinstance(doc, dict)` guard is vacuous in the typed
model (every element is a document record). -/
def scoredEntries (documents : List Doc) : List ScoreEntry :=
  documents.enum.map fun pr =>
    { label := docLabel pr.1 pr.2
      score := docScore pr.2
      metadata := pr.2.metadata
      source_index := pr.1 }

/-- `get_document_relevance_scores` (`rag_pipeline.py` lines 225-280): score
every document, sort stably descending by score, return the first `top_k`. -/
def get_document_relevance_scores (documents : List Doc) (top_k : ℕ) : List ScoreEntry :=
  if documents = [] then []
  else
    ((scoredEntries documents).mergeSort fun a b => decide (b.score ≤ a.score)).take top_k

/-- Outcomes of the external collaborators for one request.  An `Except.error`
models a raised exception (or, for LLM calls, a non-200 status, which
`_call_llm` turns into a raise at `rag_pipeline.py` lines 59-61). -/
structure Env where
  rewriteLLM : Except String String
  embed : Except String (List ℚ)
  search : Except String (List Doc)
  generateLLM : Except String String
  loadResult : Except String Unit
  predict : List (String × String) → Option (List ℚ)

/-- `rewritten.splitlines()[0]` (`rag_pipeline.py` line 110).  Python
`splitlines` also splits on `\r` etc.; the model splits on `\n`, which is the
only separator the claims exercise. -/
def firstLine (s : String) : String :=
  (s.splitOn "\n").headD ""

/-- `rewrite_query` (`rag_pipeline.py` lines 87-116), with the call it makes
to the LLM backend recorded.  Every failure path falls back to the original
query. -/
def rewrite_query (p : Pipeline) (env : Env) (query : String) : String × List ExtCall :=
  if !p.enable_query_rewrite then (query, [])
  else
    match env.rewriteLLM with
    | .error _ => (query, [.llm])
    | .ok content =>
      let rewritten := content.trim
      if rewritten = "" then (query, [.llm])
      else
        let first_line := (firstLine rewritten).trim
        (if first_line ≠ "" then first_line else query, [.llm])

/-- `build_prompt` (`rag_pipeline.py` lines 64-73). -/
def build_prompt (user_query context : String) : String :=
  "基于以下上下文信息回答问题。如果上下文中没有相关信息，请基于你的知识回答。\n\n上下文信息：\n"
    ++ context ++ "\n\n用户问题：" ++ user_query ++ "\n\n请提供准确、详细的回答："

/-- `generate_answer` (`rag_pipeline.py` lines 75-84): one blocking LLM call;
exceptions become the error string `"生成回答时出错: ..."` instead of raising. -/
def generate_answer (env : Env) (user_query context : String)
    (history : List ChatMsg) : String × List ExtCall :=
  let _messages := history ++ [⟨"user", build_prompt user_query context⟩]
  (match env.generateLLM with
   | .ok content => content
   | .error e => "生成回答时出错: " ++ e, [.llm])

/-- `retrieve_documents` (`rag_pipeline.py` lines 127-132): embed the query,
then search the vector store; an exception in either propagates to the caller
(`Except.error`), and the trace records only the calls actually made. -/
def retrieve_documents (env : Env) : Except String (List Doc) × List ExtCall :=
  match env.embed with
  | .error e => (.error e, [.embed])
  | .ok _ =>
    match env.search with
    | .error e => (.error e, [.embed, .search])
    | .ok docs => (.ok docs, [.embed, .search])

/-- The dictionary returned by `run_pipeline` (`rag_pipeline.py` lines 214-222). -/
structure PipelineOut where
  query : String
  rewritten_query : String
  retrieved_documents : List Doc
  initial_retrieved_documents : List Doc
  context : String
  answer : String
  relevance_scores : List ScoreEntry
deriving Repr

/-- `run_pipeline` (`rag_pipeline.py` lines 196-222): rewrite → oversampled
retrieve → rerank to `n_results` → context → blocking generate → relevance
diagnostics.  Returns `Except.error` when retrieval raises. -/
def run_pipeline (p : Pipeline) (env : Env) (user_query : String) (n_results : ℕ)
    (history : List ChatMsg) : Except String PipelineOut × List ExtCall :=
  let rw := rewrite_query p env user_query
  let _retrieve_k := calc_retrieve_count p n_results
  match retrieve_documents env with
  | (.error e, c2) => (.error e, rw.2 ++ c2)
  | (.ok initial_docs, c2) =>
    let final_docs := (rerank_documents p env.loadResult env.predict user_query
      initial_docs n_results).2
    let context := build_context final_docs
    let gen := generate_answer env user_query context history
    let relevance_scores := get_document_relevance_scores final_docs n_results
    (.ok { query := user_query, rewritten_query := rw.1,
           retrieved_documents := final_docs,
           initial_retrieved_documents := initial_docs,
           context := context, answer := gen.1,
           relevance_scores := relevance_scores }, rw.2 ++ c2 ++ gen.2)

/-- The result dictionary of `RAGManager.query_database` (`rag_manager.py`
lines 151-191).  The success dictionary carries no `message` key; that is
modelled as `message = ""`.  The relevance-plot keys are produced by
`_generate_relevance_plot`, which catches all its own exceptions and only adds
extra keys; they are omitted. -/
structure QueryResult where
  success : Bool
  message : String
  answer : String
  pipeline : Option PipelineOut
deriving Repr

/-- `query_database` (`rag_manager.py` lines 151-191): a missing collection is
reported immediately, before any external call; otherwise the pipeline runs
and an exception from it becomes a failure dictionary. -/
def query_database (dbExists : Bool) (p : Pipeline) (env : Env) (query : String)
    (n_results : ℕ) (history : List ChatMsg) : QueryResult × List ExtCall :=
  if !dbExists then
    ({ success := false, message := "数据库不存在",
       answer := "数据库不存在，请先创建或选择数据库", pipeline := none }, [])
  else
    match run_pipeline p env query n_results history with
    | (.error e, calls) =>
      ({ success := false, message := "查询失败: " ++ e,
         answer := "查询时出错: " ++ e, pipeline := none }, calls)
    | (.ok pr, calls) =>
      ({ success := true, message := "", answer := pr.answer,
         pipeline := some pr }, calls)

/-- The `message` object of one streamed JSON line (`rag_manager.py` lines
255-288).  `tool_calls` holds `str(message.get('tool_calls', ''))`, the
string coercion the code applies; absent keys are `none`. -/
structure Msg where
  thinking : Option String
  reasoning : Option String
  tool_calls : Option String
  content : Option String
deriving DecidableEq, Repr

/-- One line of the streamed LLM response as the loop at `rag_manager.py`
lines 245-304 classifies it:
* `skipped` — empty bytes or whitespace-only text (lines 246, 249);
* `malformed` — `json.JSONDecodeError`, silently skipped (line 298);
* `bad e` — any other per-line exception (e.g. the parsed value is not an
  object), surfaced as a non-terminal `error` event (lines 300-304);
* `obj msg done` — a parsed object with its optional `message` and its
  `done` flag. -/
inductive Line where
  | skipped
  | malformed
  | bad (e : String)
  | obj (msg : Option Msg) (done : Bool)
deriving DecidableEq, Repr

/-- A streamed event as yielded by `query_database_stream`
(`rag_manager.py` lines 193-314).  The `documents` payload keeps the fields
the claims mention; the plot keys are omitted as in `QueryResult`. -/
inductive Event where
  | documents (rewritten : String) (docs initial : List Doc) (context : String)
  | thinking (content : String)
  | content (delta full : String)
  | done (full thinking : String)
  | error (content : String)
deriving DecidableEq, Repr

def Event.isDone : Event → Bool
  | .done _ _ => true
  | _ => false

def Event.isError : Event → Bool
  | .error _ => true
  | _ => false

def Event.isThinking : Event → Bool
  | .thinking _ => true
  | _ => false

def Event.isContent : Event → Bool
  | .content _ _ => true
  | _ => false

/-- The reasoning text chosen for one line (`rag_manager.py` lines 262-270):
`message['thinking']` if present and truthy, else `message['reasoning']` if
present and truthy, else `str(message['tool_calls'])` if the key is present
(no truthiness check on this last branch), else nothing. -/
def pickThinking (m : Msg) : Option String :=
  if m.thinking.getD "" ≠ "" then m.thinking
  else if m.reasoning.getD "" ≠ "" then m.reasoning
  else
    match m.tool_calls with
    | some s => some s
    | none => none

/-- Processing of the `message` object of one line (`rag_manager.py` lines
255-288): at most one `thinking` event (carrying the updated reasoning
accumulator) followed by at most one `content` event (carrying the delta and
the updated answer accumulator); returns the events together with the new
accumulators `(full_content, thinking_content)`. -/
def processMsg (msg : Option Msg) (full think : String) :
    List Event × String × String :=
  match msg with
  | none => ([], full, think)
  | some m =>
    let t1 :=
      match pickThinking m with
      | some t => if t ≠ "" then ([Event.thinking (think ++ t)], think ++ t) else ([], think)
      | none => ([], think)
    let t2 :=
      match m.content with
      | some c => if c ≠ "" then ([Event.content c (full ++ c)], full ++ c) else ([], full)
      | none => ([], full)
    (t1.1 ++ t2.1, t2.2, t1.2)

/-- The `for line in response.iter_lines()` loop (`rag_manager.py` lines
245-304), carrying the two accumulators.  A line whose `done` flag is set
yields the `done` event and breaks; the loop may also simply run out of
lines, in which case nothing further is emitted. -/
def streamLoop : List Line → String → String → List Event
  | [], _, _ => []
  | .skipped :: rest, full, think => streamLoop rest full think
  | .malformed :: rest, full, think => streamLoop rest full think
  | .bad e :: rest, full, think =>
    .error ("解析响应失败: " ++ e) :: streamLoop rest full think
  | .obj msg doneFlag :: rest, full, think =>
    let r := processMsg msg full think
    if doneFlag then r.1 ++ [.done r.2.1 r.2.2]
    else r.1 ++ streamLoop rest r.2.1 r.2.2

/-- `query_database_stream` (`rag_manager.py` lines 193-314).  `status` and
`lines` describe the streaming LLM response; a non-200 status makes
`_call_llm` raise (`rag_pipeline.py` lines 59-61), which the outer
`except` turns into a single `error` event after the `documents` event. -/
def query_database_stream (dbExists : Bool) (p : Pipeline) (env : Env)
    (query : String) (n_results : ℕ) (history : List ChatMsg)
    (status : ℕ) (lines : List Line) : List Event × List ExtCall :=
  if !dbExists then ([.error "数据库不存在，请先创建或选择数据库"], [])
  else
    let rw := rewrite_query p env query
    let _retrieve_k := calc_retrieve_count p n_results
    match retrieve_documents env with
    | (.error e, c2) => ([.error ("查询失败: " ++ e)], rw.2 ++ c2)
    | (.ok initial_docs, c2) =>
      let retrieved_docs := (rerank_documents p env.loadResult env.predict query
        initial_docs n_results).2
      let context := build_context retrieved_docs
      let docsEvent := Event.documents rw.1 retrieved_docs initial_docs context
      let _messages := history ++ [⟨"user", build_prompt query context⟩]
      if status = 200 then
        (docsEvent :: streamLoop lines "" "", rw.2 ++ c2 ++ [.llm])
      else
        (docsEvent :: [.error ("查询失败: LLM 调用失败: " ++ toString status
          ++ " - status=" ++ toString status)], rw.2 ++ c2 ++ [.llm])

/-- The history-truncation step shared by `/api/chat` and `/api/chat/stream`
(`api.py` lines 272-274 and 341-343): keep the last 40 messages once the
list exceeds 40 (`history[-40:]`). -/
def truncate40 (l : List ChatMsg) : List ChatMsg :=
  if l.length > 40 then l.drop (l.length - 40) else l

/-- The history update of the blocking `/api/chat` endpoint (`api.py` lines
269-274): append the user turn and the answer only when
`result.get("success", True) and result.get("answer")` holds, then truncate. -/
def chat_update (hist : List ChatMsg) (query : String) (res : QueryResult) :
    List ChatMsg :=
  if res.success ∧ res.answer ≠ "" then
    truncate40 (hist ++ [⟨"user", query⟩, ⟨"assistant", res.answer⟩])
  else hist

/-- The history update of the streaming `/api/chat/stream` endpoint
(`api.py` lines 321-343): the SSE loop appends the turn (with the `done`
event's `full_content`) and truncates whenever it forwards a `done` chunk. -/
def chat_stream_update (hist : List ChatMsg) (query : String)
    (events : List Event) : List ChatMsg :=
  events.foldl
    (fun h e =>
      match e with
      | .done full _ => truncate40 (h ++ [⟨"user", query⟩, ⟨"assistant", full⟩])
      | _ => h)
    hist

/-- The `/api/chat` endpoint (`api.py` lines 249-276): query with a copy of
the stored history, then update the stored history. -/
def chat_endpoint (stored : List ChatMsg) (dbExists : Bool) (p : Pipeline)
    (env : Env) (query : String) (n_results : ℕ) : QueryResult × List ChatMsg :=
  let r := query_database dbExists p env query n_results stored
  (r.1, chat_update stored query r.1)

-- Definitions below this line follow the SPEC's wording, for comparison with
-- the code-derived definitions above (refinement targets of the claims).

/-- The first non-empty entry of a list of optional strings — the spec's
"only the first non-empty match per line is used" (§4.6). -/
def firstNonemptyStr : List (Option String) → Option String
  | [] => none
  | o :: rest =>
    match o with
    | some s => if s ≠ "" then some s else firstNonemptyStr rest
    | none => firstNonemptyStr rest

/-- The claim's priority rule for reasoning text (C4): dedicated reasoning
field, then alternate reasoning field, then tool-invocation field coerced to
text, first non-empty match only. -/
def thinkingPriorityPick (m : Msg) : Option String :=
  firstNonemptyStr [m.thinking, m.reasoning, m.tool_calls]

/-- The claim's relevance-score formula (C5): `rerank_score` if present, else
`1 − distance` if present, else `0.0`. -/
def specRelevanceScore (d : Doc) : ℚ :=
  match d.rerank_score with
  | some r => r
  | none =>
    match d.distance with
    | some dist => 1 - dist
    | none => 0

/-- "Nothing is emitted after a `done` event": every `done` in the list sits
at the last position. -/
def doneOnlyLast (L : List Event) : Prop :=
  ∀ (i : ℕ) (hi : i < L.length), (L.get ⟨i, hi⟩).isDone = true → i + 1 = L.length

/-- A concrete document used by the witnesses. -/
def sampleDoc : Doc :=
  { content := "巴黎是法国的首都。"
    distance := some (1/4)
    rerank_score := none
    metadata := { chunk_index := some 0, file_name := some "a.txt", source := none } }

/-- The relevance entry `get_document_relevance_scores` computes for
`sampleDoc` at position 0: label `a.txt#片段1`, score `1 − distance = 3/4`. -/
def sampleEntry : ScoreEntry :=
  { label := "a.txt#片段1", score := 1 - 1/4, metadata := sampleDoc.metadata,
    source_index := 0 }

/-- Environment in which every external call succeeds and the vector store
returns no documents. -/
def envEmptyOk : Env :=
  { rewriteLLM := .ok "", embed := .ok [], search := .ok [],
    generateLLM := .ok "", loadResult := .ok (), predict := fun _ => none }

/-- A pipeline with the default multiplier (1.8 = 9/5) and cap (15), query
rewriting off. -/
def pipelineNoRewrite : Pipeline := pipeline_init false true (9/5) 15

/-- A concrete successful query result used by the witnesses. -/
def sampleResult : QueryResult :=
  { success := true, message := "", answer := "a", pipeline := none }

-- ——— Helper lemmas ———————————————————————————————————————————————

theorem buildParts_eq_enum (l : List Doc) :
    ∀ n : ℕ, buildParts l n =
      l.enum.map (fun pr => "[文档" ++ toString (pr.1 + n) ++ "]\n" ++ pr.2.content) := by
  induction l with
  | nil => intro n; rfl
  | cons d rest ih =>
    intro n
    simp only [buildParts, ih (n + 1), List.enum_cons', List.map_cons, List.map_map]
    rw [Nat.zero_add]
    congr 1
    apply List.map_congr_left
    intro a _
    simp only [Function.comp, Prod.map, id]
    have hnum : a.1 + (n + 1) = a.1 + 1 + n := by omega
    rw [hnum]

theorem truncate40_suffix (l : List ChatMsg) : truncate40 l <:+ l := by
  unfold truncate40
  split
  · exact List.drop_suffix _ _
  · exact List.suffix_rfl

theorem truncate40_length (l : List ChatMsg) :
    (truncate40 l).length = min l.length 40 := by
  unfold truncate40
  split
  · rw [List.length_drop]; omega
  · omega

theorem chat_stream_update_length (q : String) :
    ∀ (events : List Event) (hist : List ChatMsg), hist.length ≤ 40 →
      (chat_stream_update hist q events).length ≤ 40 := by
  intro events
  induction events with
  | nil => intro hist h; exact h
  | cons e rest ih =>
    intro hist h
    unfold chat_stream_update at ih ⊢
    rw [List.foldl_cons]
    cases e with
    | done full t =>
      apply ih
      rw [truncate40_length]
      omega
    | documents a b c d => exact ih hist h
    | thinking c => exact ih hist h
    | content a b => exact ih hist h
    | error c => exact ih hist h

theorem docScore_eq_spec (d : Doc) : docScore d = specRelevanceScore d := rfl

theorem chat_update_pos (hist : List ChatMsg) (q : String) (res : QueryResult)
    (hs : res.success = true) (ha : res.answer ≠ "") :
    chat_update hist q res =
      truncate40 (hist ++ [⟨"user", q⟩, ⟨"assistant", res.answer⟩]) := by
  unfold chat_update
  rw [if_pos ⟨hs, ha⟩]

theorem err_answer_ne_empty (e : String) : ("生成回答时出错: " ++ e) ≠ "" := by
  intro h
  have hlen := congrArg String.length h
  rw [String.length_append] at hlen
  have h9 : ("生成回答时出错: " : String).length = 9 := rfl
  rw [h9] at hlen
  simp at hlen

theorem doneOnlyLast_singleton (e : Event) : doneOnlyLast [e] := by
  intro i hi _
  simp only [List.length_singleton] at hi ⊢
  omega

theorem doneOnlyLast_cons (e : Event) (L : List Event) (he : e.isDone = false)
    (hL : doneOnlyLast L) : doneOnlyLast (e :: L) := by
  intro i hi hd
  cases i with
  | zero =>
    rw [show (e :: L).get ⟨0, hi⟩ = e from rfl, he] at hd
    cases hd
  | succ j =>
    have hj : j < L.length := by
      simp only [List.length_cons] at hi
      omega
    have hd' : (L.get ⟨j, hj⟩).isDone = true := by simpa using hd
    have := hL j hj hd'
    simp only [List.length_cons]
    omega

theorem doneOnlyLast_append (evs L : List Event)
    (hevs : ∀ e ∈ evs, e.isDone = false) (hL : doneOnlyLast L) :
    doneOnlyLast (evs ++ L) := by
  induction evs with
  | nil => exact hL
  | cons e rest ih =>
    rw [List.cons_append]
    exact doneOnlyLast_cons _ _ (hevs e (List.mem_cons_self _ _))
      (ih fun x hx => hevs x (List.mem_cons_of_mem _ hx))

theorem doneOnlyLast_shift (e : Event) (L : List Event)
    (h : doneOnlyLast (e :: L)) : doneOnlyLast L := by
  intro i hi hd
  have hsucc := h (i + 1) (by simp only [List.length_cons]; omega) (by simpa using hd)
  simp only [List.length_cons] at hsucc
  omega

theorem doneOnlyLast_head (e : Event) (L : List Event)
    (h : doneOnlyLast (e :: L)) (hd : e.isDone = true) : L = [] := by
  have h0 := h 0 (by simp only [List.length_cons]; omega)
    (by rw [show (e :: L).get ⟨0, by simp only [List.length_cons]; omega⟩ = e from rfl]; exact hd)
  simp only [List.length_cons] at h0
  exact List.length_eq_zero.mp (by omega)

theorem doneOnlyLast_count (L : List Event) (h : doneOnlyLast L) :
    (L.filter Event.isDone).length ≤ 1 := by
  induction L with
  | nil => simp
  | cons e rest ih =>
    by_cases hd : e.isDone = true
    · have hrest : rest = [] := doneOnlyLast_head e rest h hd
      subst hrest
      simp [List.filter, hd]
    · have hd' : e.isDone = false := by
        cases hb : e.isDone
        · rfl
        · exact absurd hb hd
      rw [List.filter_cons]
      rw [hd']
      exact ih (doneOnlyLast_shift e rest h)

theorem processMsg_no_done (msg : Option Msg) (full think : String) :
    ∀ e ∈ (processMsg msg full think).1, e.isDone = false := by
  intro e he
  rcases msg with _ | m
  · simp [processMsg] at he
  · simp only [processMsg] at he
    rcases List.mem_append.mp he with h | h
    · rcases hp : pickThinking m with _ | t
      · rw [hp] at h
        simp at h
      · rw [hp] at h
        by_cases ht : t = ""
        · simp [ht] at h
        · simp [ht] at h
          rw [h]
          rfl
    · rcases hc : m.content with _ | c
      · rw [hc] at h
        simp at h
      · rw [hc] at h
        by_cases hcc : c = ""
        · simp [hcc] at h
        · simp [hcc] at h
          rw [h]
          rfl

theorem streamLoop_doneOnlyLast :
    ∀ (lines : List Line) (full think : String),
      doneOnlyLast (streamLoop lines full think) := by
  intro lines
  induction lines with
  | nil =>
    intro full think i hi
    simp [streamLoop] at hi
  | cons l rest ih =>
    intro full think
    cases l with
    | skipped => exact ih full think
    | malformed => exact ih full think
    | bad e => exact doneOnlyLast_cons _ _ rfl (ih full think)
    | obj msg doneFlag =>
      cases doneFlag
      · exact doneOnlyLast_append _ _ (processMsg_no_done msg full think) (ih _ _)
      · exact doneOnlyLast_append _ _ (processMsg_no_done msg full think)
          (doneOnlyLast_singleton _)

-- ——— Claim theorems ——————————————————————————————————————————————

/-- C1 (counterexample): as stated the claim fails — with the default
multiplier 1.8 and cap 15, a requested count of `n = 16 ≥ 1` yields
`k = 15 < n`, so `n ≤ k` does not hold. -/
theorem C1_counterexample :
    ¬ ((16 : ℤ) ≤ calc_retrieve_count (pipeline_init true true (9/5) 15) 16) := by
  norm_num [calc_retrieve_count, pipeline_init]

/-- C1 (amended): for every requested `n ≥ 1` and a nonzero cap, the
oversampled count `k` of `_calc_retrieve_count` satisfies `k ≤ cap` and
`min(n, cap) ≤ k` (so `n ≤ k` whenever `n ≤ cap`), and
`k ≥ ceil(n * multiplier)` whenever the cap does not bind. -/
theorem C1_calc_retrieve_count_bounds (p : Pipeline) (n : ℕ) (_hn : 1 ≤ n)
    (hcap : p.max_retrieve_results ≠ 0) :
    calc_retrieve_count p n ≤ p.max_retrieve_results ∧
    min (n : ℤ) p.max_retrieve_results ≤ calc_retrieve_count p n ∧
    (max (n : ℤ) ⌈(n : ℚ) * p.retrieval_multiplier⌉ ≤ p.max_retrieve_results →
      ⌈(n : ℚ) * p.retrieval_multiplier⌉ ≤ calc_retrieve_count p n) := by
  unfold calc_retrieve_count
  rw [if_pos hcap]
  refine ⟨min_le_right _ _, min_le_min (le_max_left _ _) le_rfl, ?_⟩
  intro h
  rw [min_eq_left h]
  exact le_max_right _ _

/-- Witness for C1 at `n = 5` against the default configuration. -/
theorem C1_calc_retrieve_count_bounds_witness :
    calc_retrieve_count (pipeline_init true true (9/5) 15) 5
      ≤ (pipeline_init true true (9/5) 15).max_retrieve_results :=
  (C1_calc_retrieve_count_bounds (pipeline_init true true (9/5) 15) 5
    (by norm_num) (by norm_num [pipeline_init])).1

/-- C10: the constructor stores `max(1.0, retrieval_multiplier)` as the
effective multiplier, and therefore for every requested `n ≥ 1` with a cap of
at least `n`, `_calc_retrieve_count(n) ≥ n`, even when the supplied
multiplier is below 1.0. -/
theorem C10_multiplier_clamped (eqr er : Bool) (m : ℚ) (cap : ℤ) (n : ℕ)
    (hn : 1 ≤ n) (hcap : (n : ℤ) ≤ cap) :
    (pipeline_init eqr er m cap).retrieval_multiplier = max 1 m ∧
    (n : ℤ) ≤ calc_retrieve_count (pipeline_init eqr er m cap) n := by
  refine ⟨rfl, ?_⟩
  have hm : (1 : ℚ) ≤ max 1 m := le_max_left _ _
  have h1 : (n : ℚ) ≤ (n : ℚ) * max 1 m :=
    le_mul_of_one_le_right (by positivity) hm
  have h2 : (n : ℤ) ≤ ⌈(n : ℚ) * max 1 m⌉ := by
    calc (n : ℤ) = ⌈((n : ℤ) : ℚ)⌉ := (Int.ceil_intCast _).symm
    _ ≤ ⌈(n : ℚ) * max 1 m⌉ := Int.ceil_le_ceil (by push_cast; exact h1)
  have hcap0 : cap ≠ 0 := by omega
  unfold calc_retrieve_count pipeline_init
  simp only
  rw [if_pos hcap0]
  exact le_min (le_max_left _ _) hcap

/-- Witness for C10: multiplier 1/2 (below 1.0), cap 15, `n = 3`. -/
theorem C10_multiplier_clamped_witness :
    (pipeline_init true true (1/2) 15).retrieval_multiplier = max 1 (1/2) ∧
    (3 : ℤ) ≤ calc_retrieve_count (pipeline_init true true (1/2) 15) 3 :=
  C10_multiplier_clamped true true (1/2) 15 3 (by norm_num) (by norm_num)

/-- C6: `build_context` of the empty list is the fixed no-documents sentinel,
and on a non-empty list it is the documents' contents in the given order,
each prefixed with exactly one 1-based positional `[文档N]` tag matching the
document's position, joined by a blank-line separator. -/
theorem C6_build_context (docs : List Doc) (hne : docs ≠ []) :
    build_context [] = "未找到相关文档" ∧
    build_context docs = String.intercalate "\n\n"
      (docs.enum.map fun pr => "[文档" ++ toString (pr.1 + 1) ++ "]\n" ++ pr.2.content) := by
  refine ⟨rfl, ?_⟩
  unfold build_context
  rw [if_neg hne, buildParts_eq_enum]

/-- Witness for C6 on a one-document list. -/
theorem C6_build_context_witness :
    build_context [] = "未找到相关文档" ∧
    build_context [sampleDoc] = String.intercalate "\n\n"
      ([sampleDoc].enum.map fun pr =>
        "[文档" ++ toString (pr.1 + 1) ++ "]\n" ++ pr.2.content) :=
  C6_build_context [sampleDoc] (by simp)

/-- C8: after a completed turn of either chat endpoint the stored history has
at most 40 messages (given it respected the bound before the turn, as it
always does starting from the empty history), and truncation keeps a suffix
of the appended history, i.e. drops only from the oldest end. -/
theorem C8_history_bounded (hist : List ChatMsg) (q : String)
    (res : QueryResult) (events : List Event) (h : hist.length ≤ 40) :
    (chat_update hist q res).length ≤ 40 ∧
    (chat_stream_update hist q events).length ≤ 40 ∧
    (chat_update hist q res = hist ∨
      chat_update hist q res =
        truncate40 (hist ++ [⟨"user", q⟩, ⟨"assistant", res.answer⟩])) ∧
    (∀ l : List ChatMsg, truncate40 l <:+ l) := by
  refine ⟨?_, chat_stream_update_length q events hist h, ?_, truncate40_suffix⟩
  · unfold chat_update
    split
    · rw [truncate40_length]; omega
    · exact h
  · unfold chat_update
    split
    · exact Or.inr rfl
    · exact Or.inl rfl

/-- C3: `rerank_documents` returns at most `top_k` documents, and whenever
reranking is disabled or the reranker is unavailable (including after a
sticky load failure flipped the availability flag), it returns exactly the
first `top_k` candidates in their original order. -/
theorem C3_rerank_topk (p : Pipeline) (loadResult : Except String Unit)
    (pred : List (String × String) → Option (List ℚ)) (q : String)
    (docs : List Doc) (k : ℕ) :
    ((rerank_documents p loadResult pred q docs k).2).length ≤ k ∧
    ((p.enable_rerank = false ∨ p.reranker_available = false) →
      (rerank_documents p loadResult pred q docs k).2 = docs.take k) := by
  constructor
  · unfold rerank_documents
    split
    · simp
    · split
      · rw [List.length_take]; omega
      · split <;> (dsimp only; split <;> (simp only [List.length_take]; omega))
  · intro hdis
    unfold rerank_documents
    split
    · rename_i hnil
      rw [hnil, List.take_nil]
    · split
      · rfl
      · rename_i hcond
        exfalso
        rcases hdis with h | h <;> simp [h] at hcond

/-- Witness for C3: with reranking disabled the result is the `top_k`-prefix
of the input. -/
theorem C3_rerank_topk_witness :
    (rerank_documents (pipeline_init true false 1 15) (.ok ()) (fun _ => none)
        "q" [sampleDoc] 1).2 = [sampleDoc].take 1 :=
  (C3_rerank_topk (pipeline_init true false 1 15) (.ok ()) (fun _ => none)
    "q" [sampleDoc] 1).2 (Or.inl rfl)

/-- C5: every relevance entry computed by `get_document_relevance_scores`
scores its document as `rerank_score` when present, else `1 − distance` when
present, else `0.0` — both in the per-document scored list and in the sorted,
truncated output. -/
theorem C5_relevance_scores (docs : List Doc) (top_k : ℕ) :
    (∀ e ∈ scoredEntries docs, ∃ h : e.source_index < docs.length,
        e.score = specRelevanceScore (docs.get ⟨e.source_index, h⟩)) ∧
    (∀ e ∈ get_document_relevance_scores docs top_k,
      ∃ h : e.source_index < docs.length,
        e.score = specRelevanceScore (docs.get ⟨e.source_index, h⟩)) := by
  have hmain : ∀ e ∈ scoredEntries docs, ∃ h : e.source_index < docs.length,
      e.score = specRelevanceScore (docs.get ⟨e.source_index, h⟩) := by
    intro e he
    unfold scoredEntries at he
    rcases List.mem_map.mp he with ⟨pr, hpr, rfl⟩
    have hget : docs.get? pr.1 = some pr.2 := List.mem_enum_iff_get?.mp hpr
    rcases List.get?_eq_some.mp hget with ⟨hlt, hgeteq⟩
    exact ⟨hlt, by rw [hgeteq]; exact docScore_eq_spec pr.2⟩
  refine ⟨hmain, ?_⟩
  intro e he
  unfold get_document_relevance_scores at he
  by_cases hnil : docs = []
  · rw [if_pos hnil] at he
    simp at he
  · rw [if_neg hnil] at he
    exact hmain e (List.mem_mergeSort.mp (List.mem_of_mem_take he))

/-- Witness for C5 on a one-document list: the entry for `sampleDoc` scores
`1 − distance = 3/4`. -/
theorem C5_relevance_scores_witness :
    ∃ h : sampleEntry.source_index < [sampleDoc].length,
      sampleEntry.score = specRelevanceScore ([sampleDoc].get ⟨sampleEntry.source_index, h⟩) :=
  (C5_relevance_scores [sampleDoc] 1).1 sampleEntry (by
    have h : scoredEntries [sampleDoc] = [sampleEntry] := rfl
    rw [h]
    exact List.mem_singleton_self _)

/-- C9: when the embedding and search succeed but the blocking LLM call
fails, `generate_answer` returns the non-empty error string instead of
raising, `query_database` still reports `success = true`, and the `/api/chat`
turn appends the user turn plus that error text to the stored history. -/
theorem C9_generation_failure_appends (p : Pipeline)
    (rwF : Except String String) (v : List ℚ) (ds : List Doc) (e : String)
    (ldF : Except String Unit) (prF : List (String × String) → Option (List ℚ))
    (q : String) (n : ℕ) (stored : List ChatMsg) :
    (chat_endpoint stored true p ⟨rwF, .ok v, .ok ds, .error e, ldF, prF⟩ q n).1.success
        = true ∧
    (chat_endpoint stored true p ⟨rwF, .ok v, .ok ds, .error e, ldF, prF⟩ q n).1.answer
        = "生成回答时出错: " ++ e ∧
    (chat_endpoint stored true p ⟨rwF, .ok v, .ok ds, .error e, ldF, prF⟩ q n).1.answer
        ≠ "" ∧
    (chat_endpoint stored true p ⟨rwF, .ok v, .ok ds, .error e, ldF, prF⟩ q n).2
        = truncate40 (stored ++ [⟨"user", q⟩, ⟨"assistant", "生成回答时出错: " ++ e⟩]) := by
  refine ⟨rfl, rfl, err_answer_ne_empty e, ?_⟩
  exact chat_update_pos stored q
    (query_database true p ⟨rwF, .ok v, .ok ds, .error e, ldF, prF⟩ q n stored).1
    rfl (err_answer_ne_empty e)

/-- Witness for C9: a concrete turn whose LLM call fails with `"boom"`. -/
theorem C9_generation_failure_appends_witness :
    (chat_endpoint [] true pipelineNoRewrite
        ⟨.ok "", .ok [], .ok [], .error "boom", .ok (), fun _ => none⟩ "q" 1).1.success
        = true ∧
    (chat_endpoint [] true pipelineNoRewrite
        ⟨.ok "", .ok [], .ok [], .error "boom", .ok (), fun _ => none⟩ "q" 1).1.answer
        = "生成回答时出错: " ++ "boom" ∧
    (chat_endpoint [] true pipelineNoRewrite
        ⟨.ok "", .ok [], .ok [], .error "boom", .ok (), fun _ => none⟩ "q" 1).1.answer
        ≠ "" ∧
    (chat_endpoint [] true pipelineNoRewrite
        ⟨.ok "", .ok [], .ok [], .error "boom", .ok (), fun _ => none⟩ "q" 1).2
        = truncate40 ([] ++ [⟨"user", "q"⟩, ⟨"assistant", "生成回答时出错: " ++ "boom"⟩]) :=
  C9_generation_failure_appends pipelineNoRewrite (.ok "") [] [] "boom" (.ok ())
    (fun _ => none) "q" 1 []

/-- C2 (counterexample): as stated the claim fails — when the backend's line
stream ends without a `done`-flagged line (here: no lines at all), the stream
emits no terminal event, so "exactly one terminal event per stream" is false. -/
theorem C2_counterexample :
    ((query_database_stream true pipelineNoRewrite envEmptyOk "q" 1 [] 200 []).1.filter
        (fun e => e.isDone || e.isError)) = [] ∧
    (query_database_stream true pipelineNoRewrite envEmptyOk "q" 1 [] 200 []).1 ≠ [] := by
  constructor
  · rfl
  · show (Event.documents "q" [] [] "未找到相关文档" :: []) ≠ []
    exact List.cons_ne_nil _ _

/-- C2 (amended): no `content`, `thinking`, or any other event is emitted
after a `done` event — a `done` can only be the last event of the stream —
and at most one `done` event is emitted per stream.  (A stream may end with
no terminal event at all when the backend never flags a line as done, and a
non-terminal `error` event may precede a `done`.) -/
theorem C2_stream_done_terminal (dbExists : Bool) (p : Pipeline) (env : Env)
    (query : String) (n : ℕ) (history : List ChatMsg) (status : ℕ)
    (lines : List Line) :
    doneOnlyLast (query_database_stream dbExists p env query n history status lines).1 ∧
    ((query_database_stream dbExists p env query n history status lines).1.filter
        Event.isDone).length ≤ 1 := by
  have hmain :
      doneOnlyLast (query_database_stream dbExists p env query n history status lines).1 := by
    unfold query_database_stream
    split
    · exact doneOnlyLast_singleton _
    · dsimp only
      split
      · exact doneOnlyLast_singleton _
      · split
        · exact doneOnlyLast_cons _ _ rfl (streamLoop_doneOnlyLast _ _ _)
        · exact doneOnlyLast_cons _ _ rfl (doneOnlyLast_singleton _)
  exact ⟨hmain, doneOnlyLast_count _ hmain⟩

/-- Witness for C2 on a stream with a single `done`-flagged line. -/
theorem C2_stream_done_terminal_witness :
    doneOnlyLast (query_database_stream true pipelineNoRewrite envEmptyOk "q" 1 []
        200 [Line.obj none true]).1 ∧
    ((query_database_stream true pipelineNoRewrite envEmptyOk "q" 1 []
        200 [Line.obj none true]).1.filter Event.isDone).length ≤ 1 :=
  C2_stream_done_terminal true pipelineNoRewrite envEmptyOk "q" 1 [] 200
    [Line.obj none true]

/-- C4: for every parsed line carrying a message object, at most one
`thinking` event is emitted — exactly when the priority pick (dedicated
reasoning field, then alternate reasoning field, then tool-invocation field
coerced to text; first non-empty match only) is non-empty — and that event
carries the cumulative reasoning accumulator, not the per-line delta. -/
theorem C4_thinking_priority (m : Msg) (full think : String) :
    ((processMsg (some m) full think).1).filter Event.isThinking =
      (match thinkingPriorityPick m with
       | some t => [Event.thinking (think ++ t)]
       | none => []) := by
  rcases m with ⟨th, re, tc, co⟩
  rcases th with _ | s₁ <;> rcases re with _ | s₂ <;> rcases tc with _ | s₃ <;>
    rcases co with _ | s₄ <;>
      simp only [processMsg, pickThinking, thinkingPriorityPick, firstNonemptyStr,
        Option.getD_some, Option.getD_none] <;>
      split_ifs <;>
      simp_all [Event.isThinking, List.filter]

/-- C7: a query against a collection unknown to the database manager makes
the blocking query return a failure result with a non-empty message and a
non-empty explanatory answer, and makes the streaming query emit a single
terminal `error` event — in both cases with an empty external-call trace
(no embedding call, no search, no LLM call). -/
theorem C7_missing_collection (p : Pipeline) (env : Env) (q : String) (n : ℕ)
    (history : List ChatMsg) (status : ℕ) (lines : List Line) :
    (query_database false p env q n history).1.success = false ∧
    (query_database false p env q n history).1.message ≠ "" ∧
    (query_database false p env q n history).1.answer ≠ "" ∧
    (query_database false p env q n history).2 = [] ∧
    (query_database_stream false p env q n history status lines).1 =
      [Event.error "数据库不存在，请先创建或选择数据库"] ∧
    (query_database_stream false p env q n history status lines).2 = [] := by
  refine ⟨rfl, ?_, ?_, rfl, rfl, rfl⟩
  · show ("数据库不存在" : String) ≠ ""
    decide
  · show ("数据库不存在，请先创建或选择数据库" : String) ≠ ""
    decide

/-- Witness for C7 at a concrete query. -/
theorem C7_missing_collection_witness :
    (query_database false pipelineNoRewrite envEmptyOk "q" 1 []).1.success = false ∧
    (query_database false pipelineNoRewrite envEmptyOk "q" 1 []).1.message ≠ "" ∧
    (query_database false pipelineNoRewrite envEmptyOk "q" 1 []).1.answer ≠ "" ∧
    (query_database false pipelineNoRewrite envEmptyOk "q" 1 []).2 = [] ∧
    (query_database_stream false pipelineNoRewrite envEmptyOk "q" 1 [] 200 []).1 =
      [Event.error "数据库不存在，请先创建或选择数据库"] ∧
    (query_database_stream false pipelineNoRewrite envEmptyOk "q" 1 [] 200 []).2 = [] :=
  C7_missing_collection pipelineNoRewrite envEmptyOk "q" 1 [] 200 []

/-- Witness for C8 on the empty history. -/
theorem C8_history_bounded_witness :
    (chat_update [] "q" sampleResult).length ≤ 40 ∧
    (chat_stream_update [] "q" [Event.done "a" ""]).length ≤ 40 ∧
    (chat_update [] "q" sampleResult = [] ∨
      chat_update [] "q" sampleResult =
        truncate40 ([] ++ [⟨"user", "q"⟩, ⟨"assistant", sampleResult.answer⟩])) ∧
    (∀ l : List ChatMsg, truncate40 l <:+ l) :=
  C8_history_bounded [] "q" sampleResult [Event.done "a" ""] (by norm_num)
